import Mathlib

/-!
Shallow embedding of the briefing-generation pipeline of `get_weather.py`
(aviation weather briefing service): data fetching helpers
`get_metar_data` / `get_taf_data`, the composer
`generate_summary_with_gemini` with its fallback documents, and the HTTP
handler `get_briefing`.  External effects (HTTP fetches, the Gemini model
handle, environment variables) are passed in as explicit parameters; the
Python functions' results are modelled as pure values.
-/

namespace GetWeather

/-- One METAR record as consumed by the pipeline: the two keys read via
`m.get('stationId')` / `m.get('rawOb')`; a missing key is `none`. -/
structure MetarReport where
  stationId : Option String
  rawOb : Option String
deriving DecidableEq, Repr

/-- One TAF record: the pipeline only reads `t.get('rawTAF')`; the station
key is kept for stating independence properties. -/
structure TafReport where
  stationId : Option String
  rawTAF : Option String
deriving DecidableEq, Repr

/-- Outcome of one `model.generate_content(prompt)` call: success with the
response text, or a raised exception with its message. -/
inductive AIOutcome where
  | ok (text : String)
  | error (msg : String)
deriving DecidableEq, Repr

/-- Result of one `requests.get` call as the code observes it:
either a transport failure (a raised `requests.exceptions.RequestException`),
or a response with an HTTP status and the decoded JSON body (`none` when the
body is not valid JSON; `response.json()` then raises
`requests.exceptions.JSONDecodeError`, itself a `RequestException`). -/
inductive HttpResult (α : Type) where
  | transportFailure (msg : String)
  | response (status : Nat) (decoded : Option α)

/-- `get_metar_data` (lines 30-39): `response.raise_for_status()` raises for
any status in `[400, 600)`, and every `RequestException` (transport failure,
bad status, JSON decode failure) is caught and converted to `[]`. -/
def get_metar_data (fetch : HttpResult (List MetarReport)) : List MetarReport :=
  match fetch with
  | .transportFailure _ => []
  | .response status decoded =>
      if 400 ≤ status ∧ status < 600 then [] else decoded.getD []

/-- `get_taf_data` (lines 41-50): same error handling as `get_metar_data`. -/
def get_taf_data (fetch : HttpResult (List TafReport)) : List TafReport :=
  match fetch with
  | .transportFailure _ => []
  | .response status decoded =>
      if 400 ≤ status ∧ status < 600 then [] else decoded.getD []

/-- `m.get('rawOb', '')`. -/
def rawObOrEmpty (m : MetarReport) : String :=
  m.rawOb.getD ""

/-- `t.get('rawTAF', '')`. -/
def rawTAFOrEmpty (t : TafReport) : String :=
  t.rawTAF.getD ""

/-- Line 80: `metar_texts = "\n".join([m.get('rawOb', '') for m in metars])`.
Every record contributes, a missing or empty `rawOb` contributing `""`. -/
def metarBlock (metars : List MetarReport) : String :=
  String.intercalate "\n" (metars.map rawObOrEmpty)

/-- Line 81: `taf_texts = "\n".join([t.get('rawTAF', '') for t in tafs])`. -/
def tafBlock (tafs : List TafReport) : String :=
  String.intercalate "\n" (tafs.map rawTAFOrEmpty)

/-- The spec's version of the METAR block ("newline-joined, skipping
missing/empty"), written for comparison with `metarBlock`. -/
def metarBlockSpec (metars : List MetarReport) : String :=
  String.intercalate "\n" ((metars.map rawObOrEmpty).filter (fun s => s ≠ ""))

/-- Lines 58 / 134:
`icao_codes = [m.get('stationId', '') for m in metars if m.get('stationId')]`.
A record passes the filter exactly when its `stationId` is present and
non-empty (both `None` and `''` are falsy in Python). -/
def routeIds (metars : List MetarReport) : List String :=
  (metars.filter (fun m => m.stationId.getD "" ≠ "")).map (fun m => m.stationId.getD "")

/-- Lines 59 / 135:
`route = " → ".join(icao_codes) if icao_codes else "Unknown route"`. -/
def routeLabel (metars : List MetarReport) : String :=
  if routeIds metars ≠ [] then String.intercalate " → " (routeIds metars)
  else "Unknown route"

/-- Line 88, the sorted distinct station list inside
`" → ".join(sorted({m.get('stationId', '') for m in metars if m.get('stationId')}))`:
the set comprehension keeps the distinct non-empty stationIds and `sorted`
lists them in ascending lexicographic order (Python compares strings
lexicographically by code point, which is the lexicographic order on the
character list; this coincides with `String.le` by
`String.le_iff_toList_le`). -/
def directoryIds (metars : List MetarReport) : List String :=
  List.insertionSort (fun a b => a.data ≤ b.data) (routeIds metars).dedup

/-- Line 88: `airport_directory`. -/
def airport_directory (metars : List MetarReport) : String :=
  String.intercalate " → " (directoryIds metars)

/-- Line 87: `os.getenv("PILOT_PROFILE", "General aviation VFR pilot")`. -/
def pilot_profile (env : Option String) : String :=
  env.getD "General aviation VFR pilot"

/-- Line 89: `weather_data = f"METARs:\n{metar_texts}\nTAFs:\n{taf_texts}"`. -/
def weather_data (metars : List MetarReport) (tafs : List TafReport) : String :=
  "METARs:\n" ++ metarBlock metars ++ "\nTAFs:\n" ++ tafBlock tafs

/-- Lines 92-126: the prompt f-string, as a function of its three
interpolated values. -/
def buildPrompt (pp dir wd : String) : String :=
  "\nYou are an expert aviation weather briefer. Audience pilot profile: '"
  ++ pp ++
  "'.\n\nTask:\n- Produce a very concise flight weather briefing (HTML format).\n- Route summary: Max 2–3 lines, clear & safety-focused.\n- Per-airport summary: **exactly 1 line per ICAO**, include only if conditions are extreme \n  (low vis, strong winds, storms, icing, turbulence, etc.).\n- Keep plain language, avoid unnecessary details.\n\nHTML Output Structure:\n<div class=\"briefing-content\">\n  <table class=\"briefing-table\">\n    <tr><th>Route Summary</th><td>Brief overall conditions for the route</td></tr>\n    <tr><th>Recommendations</th><td>Speed, altitude, or diversion advice</td></tr>\n  </table>\n\n  <div class=\"per-airport-section\">\n    <button class=\"read-more-btn\" onclick=\"togglePerAirport()\">Read More >></button>\n    <div class=\"per-airport-content\" style=\"display:none;\">\n      <h3>Per-Airport Conditions</h3>\n      <ul>\n        <li><strong>ICAO</strong>: 1-line summary (mention all given icao codes)</li>\n      </ul>\n    </div>\n  </div>\n</div>\n\nAIRPORT DIRECTORY:\n"
  ++ dir ++
  "\n\nRAW WEATHER DATA START\n"
  ++ wd ++
  "\nRAW WEATHER DATA END\n"

/-- The text of the fallback document of lines 61-78 before the
interpolated route label. -/
def fb1Pre : String :=
  "\n<div class=\"briefing-content\">\n  <table class=\"briefing-table\">\n    <tr><th>Route Summary</th><td>Weather briefing for "

/-- The text of the fallback document of lines 61-78 after the
interpolated route label. -/
def fb1Post : String :=
  ". Conditions appear favorable for flight operations.</td></tr>\n    <tr><th>Recommendations</th><td>Monitor weather conditions and maintain standard flight procedures.</td></tr>\n  </table>\n  \n  <div class=\"per-airport-section\">\n    <button class=\"read-more-btn\" onclick=\"togglePerAirport()\">Read More >></button>\n    <div class=\"per-airport-content\" style=\"display:none;\">\n      <h3>Per-Airport Conditions</h3>\n      <ul>\n        <li><strong>Note</strong>: AI weather analysis unavailable. Please check official weather sources.</li>\n      </ul>\n    </div>\n  </div>\n</div>\n        "

/-- Lines 57-78: the document returned when the Gemini model is not
configured (fallback case 1). -/
def fallback1 (metars : List MetarReport) : String :=
  fb1Pre ++ routeLabel metars ++ fb1Post

/-- The text of the fallback document of lines 137-154 before the
interpolated route label. -/
def fb2Pre : String :=
  "\n<div class=\"briefing-content\">\n  <table class=\"briefing-table\">\n    <tr><th>Route Summary</th><td>Weather briefing for "

/-- The text of the fallback document of lines 137-154 after the
interpolated route label. -/
def fb2Post : String :=
  ". Please check official weather sources for current conditions.</td></tr>\n    <tr><th>Recommendations</th><td>Monitor weather conditions and maintain standard flight procedures.</td></tr>\n  </table>\n  \n  <div class=\"per-airport-section\">\n    <button class=\"read-more-btn\" onclick=\"togglePerAirport()\">Read More >></button>\n    <div class=\"per-airport-content\" style=\"display:none;\">\n      <h3>Per-Airport Conditions</h3>\n      <ul>\n        <li><strong>Note</strong>: AI weather analysis temporarily unavailable. Please check official weather sources.</li>\n      </ul>\n    </div>\n  </div>\n</div>\n        "

/-- Lines 133-154: the document returned when the Gemini call raised
(fallback case 2). -/
def fallback2 (metars : List MetarReport) : String :=
  fb2Pre ++ routeLabel metars ++ fb2Post

/-- `generate_summary_with_gemini` (lines 54-154).  `model` is the
process-wide Gemini handle: `none` when configuration failed at start,
otherwise the behaviour of `model.generate_content` on a given prompt.
`pilotEnv` is the `PILOT_PROFILE` environment variable.  Returns the
summary string together with whether the model was invoked. -/
def generate_summary_with_gemini (model : Option (String → AIOutcome))
    (pilotEnv : Option String) (metars : List MetarReport) (tafs : List TafReport) :
    String × Bool :=
  match model with
  | none => (fallback1 metars, false)
  | some generate_content =>
      if metarBlock metars = "" ∧ tafBlock tafs = "" then
        ("Not enough data to generate a summary.", false)
      else
        match generate_content (buildPrompt (pilot_profile pilotEnv)
            (airport_directory metars) (weather_data metars tafs)) with
        | AIOutcome.ok text => (text, true)
        | AIOutcome.error _ => (fallback2 metars, true)

/-- The two response shapes `get_briefing` can produce: the 400 client
error `jsonify({"error": ...}), 400`, or the 200 payload with the summary
and the two report lists passed through. -/
inductive BriefingResponse where
  | clientError (err : String) (status : Nat)
  | success (summary : String) (metars : List MetarReport) (tafs : List TafReport)
deriving DecidableEq, Repr

/-- Which external calls a `get_briefing` execution performed. -/
structure CallLog where
  metarFetched : Bool
  tafFetched : Bool
  aiInvoked : Bool
deriving DecidableEq, Repr

/-- `get_briefing` (lines 163-181).  `codes` is `request.args.get('codes', '')`
before the default: `none` when the query parameter is absent.  The two
`HttpResult` arguments are what the upstream weather API would return if
called.  Returns the response together with a log of the external calls
made. -/
def get_briefing (codes : Option String) (metarFetch : HttpResult (List MetarReport))
    (tafFetch : HttpResult (List TafReport)) (model : Option (String → AIOutcome))
    (pilotEnv : Option String) : BriefingResponse × CallLog :=
  if codes.getD "" = "" then
    (BriefingResponse.clientError "No ICAO codes provided" 400,
     ⟨false, false, false⟩)
  else
    (BriefingResponse.success
       (generate_summary_with_gemini model pilotEnv (get_metar_data metarFetch)
         (get_taf_data tafFetch)).1
       (get_metar_data metarFetch) (get_taf_data tafFetch),
     ⟨true, true,
      (generate_summary_with_gemini model pilotEnv (get_metar_data metarFetch)
        (get_taf_data tafFetch)).2⟩)

/-- The route of the spec's route-label example: stationIds
`["KJFK", "KBOS", "KJFK"]`. -/
def exampleMetars : List MetarReport :=
  [⟨some "KJFK", none⟩, ⟨some "KBOS", none⟩, ⟨some "KJFK", none⟩]

/-! ### Helper lemmas about `String.intercalate` -/

lemma intercalate_go_append (s a b : String) (t : List String) :
    String.intercalate.go (a ++ b) s t = a ++ String.intercalate.go b s t := by
  induction t generalizing b with
  | nil => rfl
  | cons c t ih =>
      show String.intercalate.go (a ++ b ++ s ++ c) s t =
        a ++ String.intercalate.go (b ++ s ++ c) s t
      rw [show a ++ b ++ s ++ c = a ++ (b ++ s ++ c) by
        rw [String.append_assoc a b s, String.append_assoc a (b ++ s) c], ih]

lemma intercalate_cons_cons (s x y : String) (t : List String) :
    String.intercalate s (x :: y :: t) = x ++ s ++ String.intercalate s (y :: t) := by
  show String.intercalate.go x s (y :: t) = x ++ s ++ String.intercalate.go y s t
  show String.intercalate.go (x ++ s ++ y) s t = x ++ s ++ String.intercalate.go y s t
  exact intercalate_go_append s (x ++ s) y t

lemma intercalate_newline_ne_empty (x y : String) (t : List String) :
    String.intercalate "\n" (x :: y :: t) ≠ "" := by
  rw [intercalate_cons_cons]
  intro h
  have hl := congrArg String.length h
  rw [String.length_append, String.length_append] at hl
  have h1 : ("\n" : String).length = 1 := rfl
  have h0 : ("" : String).length = 0 := rfl
  omega

lemma intercalate_newline_eq_empty_iff (l : List String) :
    String.intercalate "\n" l = "" ↔ (∀ x ∈ l, x = "") ∧ l.length ≤ 1 := by
  match l with
  | [] => simp [String.intercalate]
  | [x] =>
      show x = "" ↔ _
      simp
  | x :: y :: t =>
      constructor
      · intro h
        exact absurd h (intercalate_newline_ne_empty x y t)
      · rintro ⟨-, hlen⟩
        have : (x :: y :: t).length = t.length + 2 := by simp
        omega

/-! ### Claims -/

/-- Claim C1, counterexample: with the AI backend unconfigured (`model = none`)
and both raw-text blocks empty (empty report lists), the code returns the
fallback-case-1 HTML document, not the "not enough data" string: line 56
checks `if not model` before the empty-block check of line 83 is ever
reached. -/
theorem C1_counterexample :
    metarBlock [] = "" ∧ tafBlock [] = "" ∧
    (generate_summary_with_gemini none none [] []).1 ≠
      "Not enough data to generate a summary." ∧
    (generate_summary_with_gemini none none [] []).1 = fallback1 [] := by
  refine ⟨rfl, rfl, ?_, rfl⟩
  decide

/-- Claim C1, amended: when the AI backend is configured and both raw-text
blocks are empty, the composer returns the literal
"Not enough data to generate a summary." string without invoking the AI
backend; when the backend is unconfigured the AI is likewise never invoked
(but the fallback-case-1 document is returned instead). -/
theorem C1_amended (ai : String → AIOutcome) (pilotEnv : Option String)
    (metars : List MetarReport) (tafs : List TafReport)
    (h1 : metarBlock metars = "") (h2 : tafBlock tafs = "") :
    generate_summary_with_gemini (some ai) pilotEnv metars tafs =
      ("Not enough data to generate a summary.", false) ∧
    (generate_summary_with_gemini (some ai) pilotEnv metars tafs).2 = false ∧
    (generate_summary_with_gemini none pilotEnv metars tafs).2 = false := by
  have hmain : generate_summary_with_gemini (some ai) pilotEnv metars tafs =
      ("Not enough data to generate a summary.", false) := by
    simp only [generate_summary_with_gemini]
    rw [if_pos ⟨h1, h2⟩]
  exact ⟨hmain, by rw [hmain], rfl⟩

/-- Claim C1, witness: the amended theorem applied at empty report lists and
a configured backend. -/
theorem C1_witness :
    metarBlock [] = "" ∧ tafBlock [] = "" ∧
    generate_summary_with_gemini (some (fun _ => AIOutcome.ok "X")) none [] [] =
      ("Not enough data to generate a summary.", false) :=
  ⟨rfl, rfl, (C1_amended (fun _ => AIOutcome.ok "X") none [] [] rfl rfl).1⟩

/-- Claim C2, counterexample: line 80 does not skip missing/empty `rawOb`
values — every record contributes one join slot.  Two records with missing
`rawOb` produce the block `"\n"`, which is not the empty string, and a
missing middle record produces `"A\n\nB"` where the spec's skipping join
produces `"A\nB"`. -/
theorem C2_counterexample :
    rawObOrEmpty ⟨none, none⟩ = "" ∧
    metarBlock [⟨none, none⟩, ⟨none, none⟩] = "\n" ∧
    metarBlock [⟨none, none⟩, ⟨none, none⟩] ≠ "" ∧
    metarBlock [⟨some "K1", some "A"⟩, ⟨none, none⟩, ⟨some "K2", some "B"⟩] = "A\n\nB" ∧
    metarBlockSpec [⟨some "K1", some "A"⟩, ⟨none, none⟩, ⟨some "K2", some "B"⟩] = "A\nB" ∧
    metarBlock [⟨some "K1", some "A"⟩, ⟨none, none⟩, ⟨some "K2", some "B"⟩] ≠
      metarBlockSpec [⟨some "K1", some "A"⟩, ⟨none, none⟩, ⟨some "K2", some "B"⟩] := by
  refine ⟨rfl, rfl, ?_, rfl, rfl, ?_⟩ <;> decide

/-- Claim C2, amended: the METAR text block newline-joins the `rawOb` value
of every record (a missing `rawOb` contributing the empty string, nothing
skipped), and likewise the TAF block from `rawTAF`; consequently a block is
empty exactly when every contribution is empty and the list has at most one
element. -/
theorem C2_amended (metars : List MetarReport) (tafs : List TafReport) :
    metarBlock metars = String.intercalate "\n" (metars.map rawObOrEmpty) ∧
    tafBlock tafs = String.intercalate "\n" (tafs.map rawTAFOrEmpty) ∧
    (metarBlock metars = "" ↔
      (∀ m ∈ metars, rawObOrEmpty m = "") ∧ metars.length ≤ 1) ∧
    (tafBlock tafs = "" ↔
      (∀ t ∈ tafs, rawTAFOrEmpty t = "") ∧ tafs.length ≤ 1) := by
  refine ⟨rfl, rfl, ?_, ?_⟩
  · rw [metarBlock, intercalate_newline_eq_empty_iff]
    simp
  · rw [tafBlock, intercalate_newline_eq_empty_iff]
    simp

/-- Claim C3: an absent or empty `codes` parameter yields the 400 response
`{"error": "No ICAO codes provided"}` with no weather fetch and no AI call;
every non-empty `codes` value proceeds to the success payload with both
fetches performed — no other input is rejected. -/
theorem C3_empty_codes_rejected :
    (∀ (mF : HttpResult (List MetarReport)) (tF : HttpResult (List TafReport))
       (model : Option (String → AIOutcome)) (pEnv : Option String),
      get_briefing none mF tF model pEnv =
        (BriefingResponse.clientError "No ICAO codes provided" 400,
         ⟨false, false, false⟩) ∧
      get_briefing (some "") mF tF model pEnv =
        (BriefingResponse.clientError "No ICAO codes provided" 400,
         ⟨false, false, false⟩)) ∧
    (∀ s : String, s ≠ "" →
      ∀ (mF : HttpResult (List MetarReport)) (tF : HttpResult (List TafReport))
        (model : Option (String → AIOutcome)) (pEnv : Option String),
      (get_briefing (some s) mF tF model pEnv).1 =
        BriefingResponse.success
          (generate_summary_with_gemini model pEnv (get_metar_data mF)
            (get_taf_data tF)).1
          (get_metar_data mF) (get_taf_data tF) ∧
      (get_briefing (some s) mF tF model pEnv).2.metarFetched = true ∧
      (get_briefing (some s) mF tF model pEnv).2.tafFetched = true) := by
  constructor
  · intro mF tF model pEnv
    exact ⟨rfl, rfl⟩
  · intro s hs mF tF model pEnv
    refine ⟨?_, ?_, ?_⟩ <;> simp [get_briefing, if_neg hs]

/-- Claim C3, witness: the rejection at an absent parameter, and the
non-rejection at `codes=KJFK` with the upstream source down. -/
theorem C3_witness :
    get_briefing none (HttpResult.transportFailure "down")
      (HttpResult.transportFailure "down") none none =
      (BriefingResponse.clientError "No ICAO codes provided" 400,
       ⟨false, false, false⟩) ∧
    (get_briefing (some "KJFK") (HttpResult.transportFailure "down")
      (HttpResult.transportFailure "down") none none).2.metarFetched = true :=
  ⟨(C3_empty_codes_rejected.1 _ _ _ _).1,
   (C3_empty_codes_rejected.2 "KJFK" (by decide) _ _ _ _).2.1⟩

/-- Claim C4: when the AI invocation raises, the composer returns the
fallback-case-2 document (the "temporarily unavailable" copy in the fixed
skeleton) instead of propagating the error; and the only error response the
endpoint ever produces is the missing-parameter 400 — every other execution
yields the success payload. -/
theorem C4_ai_error_fallback :
    (∀ (ai : String → AIOutcome) (e : String) (pEnv : Option String)
       (metars : List MetarReport) (tafs : List TafReport),
      ¬(metarBlock metars = "" ∧ tafBlock tafs = "") →
      ai (buildPrompt (pilot_profile pEnv) (airport_directory metars)
        (weather_data metars tafs)) = AIOutcome.error e →
      generate_summary_with_gemini (some ai) pEnv metars tafs =
        (fallback2 metars, true)) ∧
    (∀ (codes : Option String) (mF : HttpResult (List MetarReport))
       (tF : HttpResult (List TafReport)) (model : Option (String → AIOutcome))
       (pEnv : Option String) (err : String) (st : Nat),
      (get_briefing codes mF tF model pEnv).1 = BriefingResponse.clientError err st →
      err = "No ICAO codes provided" ∧ st = 400 ∧ codes.getD "" = "") := by
  constructor
  · intro ai e pEnv metars tafs hne hai
    simp only [generate_summary_with_gemini]
    rw [if_neg hne, hai]
  · intro codes mF tF model pEnv err st h
    by_cases hc : codes.getD "" = ""
    · have hb : get_briefing codes mF tF model pEnv =
          (BriefingResponse.clientError "No ICAO codes provided" 400,
           ⟨false, false, false⟩) := by
        simp only [get_briefing, if_pos hc]
      rw [hb] at h
      injection h with h1 h2
      exact ⟨h1.symm, h2.symm, hc⟩
    · have hb : (get_briefing codes mF tF model pEnv).1 =
          BriefingResponse.success
            (generate_summary_with_gemini model pEnv (get_metar_data mF)
              (get_taf_data tF)).1
            (get_metar_data mF) (get_taf_data tF) := by
        simp only [get_briefing, if_neg hc]
      rw [hb] at h
      exact BriefingResponse.noConfusion h

/-- Claim C4, witness: an erroring AI backend on one non-empty METAR, and the
second conjunct applied at the concrete missing-parameter request. -/
theorem C4_witness :
    generate_summary_with_gemini (some (fun _ => AIOutcome.error "boom")) none
      [⟨some "KJFK", some "KJFK 121251Z 18004KT 10SM FEW250 24/17 A3009"⟩] [] =
      (fallback2 [⟨some "KJFK", some "KJFK 121251Z 18004KT 10SM FEW250 24/17 A3009"⟩],
       true) ∧
    ("No ICAO codes provided" = "No ICAO codes provided" ∧ (400 : Nat) = 400 ∧
      (none : Option String).getD "" = "") :=
  ⟨C4_ai_error_fallback.1 _ "boom" none _ [] (by decide) rfl,
   C4_ai_error_fallback.2 none (HttpResult.transportFailure "down")
     (HttpResult.transportFailure "down") none none _ _ rfl⟩

/-- Claim C5: a transport failure or a non-success HTTP status (the
`raise_for_status` range `[400, 600)`) makes both fetchers return the empty
list without raising. -/
theorem C5_fetch_failures :
    (∀ msg : String,
      get_metar_data (HttpResult.transportFailure msg) = [] ∧
      get_taf_data (HttpResult.transportFailure msg) = []) ∧
    (∀ (status : Nat) (dm : Option (List MetarReport)) (dt : Option (List TafReport)),
      400 ≤ status → status < 600 →
      get_metar_data (HttpResult.response status dm) = [] ∧
      get_taf_data (HttpResult.response status dt) = []) := by
  refine ⟨fun msg => ⟨rfl, rfl⟩, fun status dm dt h4 h6 => ⟨?_, ?_⟩⟩
  · simp only [get_metar_data, if_pos (And.intro h4 h6)]
  · simp only [get_taf_data, if_pos (And.intro h4 h6)]

/-- Claim C5, witness: HTTP 503 and a transport failure both yield `[]`. -/
theorem C5_witness :
    get_metar_data (HttpResult.response 503 (some [⟨some "KJFK", some "X"⟩])) = [] ∧
    get_taf_data (HttpResult.response 503 none) = [] ∧
    get_metar_data (HttpResult.transportFailure "connection reset") = [] :=
  ⟨(C5_fetch_failures.2 503 (some [⟨some "KJFK", some "X"⟩]) none
      (by decide) (by decide)).1,
   (C5_fetch_failures.2 503 (some [⟨some "KJFK", some "X"⟩]) none
      (by decide) (by decide)).2,
   (C5_fetch_failures.1 "connection reset").1⟩

/-- Claim C6: with the AI backend unconfigured the composer returns the
fallback-case-1 document — the fixed skeleton around the route label derived
from the stationIds in original order, or "Unknown route" when none is
present — for every input, without invoking the AI. -/
theorem C6_unconfigured_fallback (pEnv : Option String)
    (metars : List MetarReport) (tafs : List TafReport) :
    generate_summary_with_gemini none pEnv metars tafs = (fallback1 metars, false) ∧
    fallback1 metars = fb1Pre ++ routeLabel metars ++ fb1Post ∧
    (routeIds metars = [] → routeLabel metars = "Unknown route") ∧
    (routeIds metars ≠ [] →
      routeLabel metars = String.intercalate " → " (routeIds metars)) := by
  refine ⟨rfl, rfl, ?_, ?_⟩
  · intro h
    simp [routeLabel, h]
  · intro h
    simp [routeLabel, h]

/-- Claim C6, witness: the unconfigured path at an empty route and at the
example route. -/
theorem C6_witness :
    generate_summary_with_gemini none none [] [] = (fallback1 [], false) ∧
    routeLabel [] = "Unknown route" ∧
    routeLabel exampleMetars = String.intercalate " → " (routeIds exampleMetars) :=
  ⟨(C6_unconfigured_fallback none [] []).1,
   (C6_unconfigured_fallback none [] []).2.2.1 rfl,
   (C6_unconfigured_fallback none exampleMetars []).2.2.2 (by decide)⟩

/-- Claim C7: the route label joins the (present, non-empty) stationIds with
" → " preserving duplicates and order — `["KJFK", "KBOS", "KJFK"]` yields
`"KJFK → KBOS → KJFK"` — is "Unknown route" when no stationId is present,
and both fallback documents embed exactly this label. -/
theorem C7_route_label :
    routeLabel exampleMetars = "KJFK → KBOS → KJFK" ∧
    (∀ metars, routeIds metars ≠ [] →
      routeLabel metars = String.intercalate " → " (routeIds metars)) ∧
    (∀ metars, routeIds metars = [] → routeLabel metars = "Unknown route") ∧
    (∀ metars, fallback1 metars = fb1Pre ++ routeLabel metars ++ fb1Post ∧
      fallback2 metars = fb2Pre ++ routeLabel metars ++ fb2Post) := by
  refine ⟨by decide, ?_, ?_, fun metars => ⟨rfl, rfl⟩⟩
  · intro metars h
    simp [routeLabel, h]
  · intro metars h
    simp [routeLabel, h]

/-- Claim C7, witness: the example route, the empty route, and a route with
only empty stationIds. -/
theorem C7_witness :
    routeLabel exampleMetars = "KJFK → KBOS → KJFK" ∧
    routeLabel [] = "Unknown route" ∧
    routeLabel [⟨some "", some "X"⟩, ⟨none, none⟩] = "Unknown route" ∧
    routeLabel exampleMetars = String.intercalate " → " (routeIds exampleMetars) :=
  ⟨C7_route_label.1,
   C7_route_label.2.2.1 [] rfl,
   C7_route_label.2.2.1 [⟨some "", some "X"⟩, ⟨none, none⟩] (by decide),
   C7_route_label.2.1 exampleMetars (by decide)⟩

/-- Claim C8: the airport directory of the AI prompt lists exactly the
distinct (present, non-empty) stationId values, without duplicates and in
ascending lexicographic order, joined with " → " — unlike the fallback route
label, which keeps route order and duplicates, as the example route
`["KJFK", "KBOS", "KJFK"]` shows. -/
theorem C8_airport_directory :
    (∀ metars : List MetarReport,
      (directoryIds metars).Sorted (fun a b : String => a ≤ b) ∧
      (directoryIds metars).Nodup ∧
      (∀ s, s ∈ directoryIds metars ↔ s ∈ routeIds metars) ∧
      airport_directory metars = String.intercalate " → " (directoryIds metars)) ∧
    (airport_directory exampleMetars = "KBOS → KJFK" ∧
     routeLabel exampleMetars = "KJFK → KBOS → KJFK" ∧
     airport_directory exampleMetars ≠ routeLabel exampleMetars) := by
  constructor
  · intro metars
    refine ⟨?_, ?_, ?_, rfl⟩
    · have hs : (directoryIds metars).Sorted (fun a b : String => a.data ≤ b.data) := by
        haveI : IsTotal String (fun a b : String => a.data ≤ b.data) :=
          ⟨fun a b => le_total a.data b.data⟩
        haveI : IsTrans String (fun a b : String => a.data ≤ b.data) :=
          ⟨fun a b c hab hbc => le_trans hab hbc⟩
        exact List.sorted_insertionSort _ _
      exact hs.imp (fun h => String.le_iff_toList_le.mpr h)
    · exact (List.perm_insertionSort _ _).nodup_iff.mpr (List.nodup_dedup _)
    · intro s
      show s ∈ List.insertionSort _ (routeIds metars).dedup ↔ s ∈ routeIds metars
      exact ((List.perm_insertionSort _ _).mem_iff).trans List.mem_dedup
  · exact ⟨by decide, by decide, by decide⟩

/-- Claim C9: when the backend is configured, at least one block is
non-empty, and the invocation succeeds, the composer returns the backend's
text exactly as received, with no post-processing. -/
theorem C9_ai_success (ai : String → AIOutcome) (t : String) (pEnv : Option String)
    (metars : List MetarReport) (tafs : List TafReport)
    (hne : ¬(metarBlock metars = "" ∧ tafBlock tafs = ""))
    (hai : ai (buildPrompt (pilot_profile pEnv) (airport_directory metars)
      (weather_data metars tafs)) = AIOutcome.ok t) :
    generate_summary_with_gemini (some ai) pEnv metars tafs = (t, true) := by
  simp only [generate_summary_with_gemini]
  rw [if_neg hne, hai]

/-- Claim C9, witness: a successful backend returning an arbitrary (even
non-HTML) payload, passed through verbatim. -/
theorem C9_witness :
    generate_summary_with_gemini
      (some (fun _ => AIOutcome.ok "<script>raw backend text</script>")) none
      [⟨some "KJFK", some "KJFK 121251Z 18004KT 10SM FEW250 24/17 A3009"⟩] [] =
      ("<script>raw backend text</script>", true) :=
  C9_ai_success _ _ none _ [] (by decide) rfl

/-- Claim C10: the TAF list never influences the fallback documents or the
airport directory: the unconfigured path gives identical output for any two
TAF lists; two executions of the erroring path give identical output; and a
station absent from the METAR stationIds appears in neither the route ids
nor the directory ids. -/
theorem C10_taf_independence (metars : List MetarReport)
    (tafs₁ tafs₂ : List TafReport) (pEnv : Option String) :
    generate_summary_with_gemini none pEnv metars tafs₁ =
      generate_summary_with_gemini none pEnv metars tafs₂ ∧
    (∀ (ai : String → AIOutcome) (e₁ e₂ : String),
      ¬(metarBlock metars = "" ∧ tafBlock tafs₁ = "") →
      ¬(metarBlock metars = "" ∧ tafBlock tafs₂ = "") →
      ai (buildPrompt (pilot_profile pEnv) (airport_directory metars)
        (weather_data metars tafs₁)) = AIOutcome.error e₁ →
      ai (buildPrompt (pilot_profile pEnv) (airport_directory metars)
        (weather_data metars tafs₂)) = AIOutcome.error e₂ →
      generate_summary_with_gemini (some ai) pEnv metars tafs₁ =
        generate_summary_with_gemini (some ai) pEnv metars tafs₂) ∧
    (∀ s : String, (∀ m ∈ metars, m.stationId ≠ some s) →
      s ∉ routeIds metars ∧ s ∉ directoryIds metars) := by
  refine ⟨rfl, ?_, ?_⟩
  · intro ai e₁ e₂ h1 h2 ha1 ha2
    have g1 : generate_summary_with_gemini (some ai) pEnv metars tafs₁ =
        (fallback2 metars, true) := by
      simp only [generate_summary_with_gemini]
      rw [if_neg h1, ha1]
    have g2 : generate_summary_with_gemini (some ai) pEnv metars tafs₂ =
        (fallback2 metars, true) := by
      simp only [generate_summary_with_gemini]
      rw [if_neg h2, ha2]
    rw [g1, g2]
  · intro s hs
    have hr : s ∉ routeIds metars := by
      intro hmem
      rw [routeIds] at hmem
      rcases List.mem_map.mp hmem with ⟨m, hmf, hms⟩
      rcases List.mem_filter.mp hmf with ⟨hm, hcond⟩
      have hne : m.stationId.getD "" ≠ "" := of_decide_eq_true hcond
      cases hsid : m.stationId with
      | none =>
          rw [hsid] at hne
          exact hne rfl
      | some v =>
          rw [hsid] at hms
          exact hs m hm (by rw [hsid, show v = s from hms])
    refine ⟨hr, fun hd => hr ?_⟩
    have : s ∈ List.insertionSort (fun a b : String => a.data ≤ b.data)
        (routeIds metars).dedup := hd
    exact ((List.perm_insertionSort _ _).mem_iff).mp this |> List.mem_dedup.mp

/-- Claim C2, witness for the amended theorem: the emptiness criterion
applied at the empty lists. -/
theorem C2_witness :
    metarBlock [] = "" ∧ tafBlock [] = "" ∧
    metarBlock [⟨some "KJFK", some "OB"⟩] ≠ "" :=
  ⟨((C2_amended [] []).2.2.1).mpr ⟨by simp, by simp⟩,
   ((C2_amended [] []).2.2.2).mpr ⟨by simp, by simp⟩,
   fun h => by
    have := ((C2_amended [⟨some "KJFK", some "OB"⟩] []).2.2.1).mp h
    simp [rawObOrEmpty] at this⟩

/-- Claim C8, witness: the directory properties at the example route. -/
theorem C8_witness :
    (directoryIds exampleMetars).Sorted (fun a b : String => a ≤ b) ∧
    (directoryIds exampleMetars).Nodup ∧
    ("KBOS" ∈ directoryIds exampleMetars ↔ "KBOS" ∈ routeIds exampleMetars) ∧
    airport_directory exampleMetars = "KBOS → KJFK" :=
  ⟨(C8_airport_directory.1 exampleMetars).1,
   (C8_airport_directory.1 exampleMetars).2.1,
   (C8_airport_directory.1 exampleMetars).2.2.1 "KBOS",
   C8_airport_directory.2.1⟩

/-- Claim C10, witness: two TAF lists (one non-empty, one empty) give the
same output on the unconfigured and on the erroring path over the example
METARs, and the TAF-only station "EGLL" is in neither the route ids nor the
directory ids. -/
theorem C10_witness :
    generate_summary_with_gemini none none exampleMetars
        [⟨some "EGLL", some "TAF EGLL 121100Z"⟩] =
      generate_summary_with_gemini none none exampleMetars [] ∧
    generate_summary_with_gemini (some (fun _ => AIOutcome.error "x")) none
        exampleMetars [⟨some "EGLL", some "TAF EGLL 121100Z"⟩] =
      generate_summary_with_gemini (some (fun _ => AIOutcome.error "x")) none
        exampleMetars [] ∧
    "EGLL" ∉ routeIds exampleMetars ∧ "EGLL" ∉ directoryIds exampleMetars :=
  ⟨(C10_taf_independence exampleMetars _ [] none).1,
   (C10_taf_independence exampleMetars _ [] none).2.1 _ "x" "x"
     (by decide) (by decide) rfl rfl,
   ((C10_taf_independence exampleMetars [] [] none).2.2 "EGLL" (by decide)).1,
   ((C10_taf_independence exampleMetars [] [] none).2.2 "EGLL" (by decide)).2⟩

end GetWeather
